import Mathlib

/-!
Shallow embedding of the dev3000 session orchestrator and log-classification
pipeline (repository davidmccoy/dev3000), together with proofs about the
claims on its specification.

Strings are modelled as `List Char`.  JavaScript regular-expression tests used
by the error detectors are embedded as executable Boolean functions:

* a pattern consisting of a plain literal becomes a substring test
  (`hasSub`, case-insensitive variant `hasSubCI`);
* a pattern of literals separated by `.*` becomes a chain test (`hasChain`,
  `hasChainCI`); the JavaScript dot does not match line terminators, so the
  gaps between the literals must be free of line terminators while the scan
  for the first literal may start anywhere;
* a negative lookahead `lit(?!.*avoid)` becomes `lookaheadNot`: some
  occurrence of `lit` is followed (within the same line) by no occurrence of
  `avoid`.

The JavaScript whitespace class and trim semantics are embedded by `isJsWS`
(the set of code points matched by \s, which is also the set removed by
String.prototype.trim).
-/

/-- Is the character one of the JavaScript line terminators (the characters
not matched by the dot in a regular expression)? -/
def isLineTerm (c : Char) : Bool :=
  c == '\n' || c == '\r' || c == '\u2028' || c == '\u2029'

/-- The JavaScript whitespace class \s (also the character set removed by
String.prototype.trim). -/
def isJsWS (c : Char) : Bool :=
  c == ' ' || c == '\t' || c == '\n' || c == '\r' ||
  c == '\x0b' || c == '\x0c' || c == '\u00a0' || c == '\u1680' ||
  ('\u2000' ≤ c && c ≤ '\u200a') || c == '\u2028' || c == '\u2029' ||
  c == '\u202f' || c == '\u205f' || c == '\u3000' || c == '\ufeff'

/-- The JavaScript word-plus-hyphen class [\w-] used by the Foreman pattern. -/
def isWordDash (c : Char) : Bool :=
  c.isAlpha || c.isDigit || c == '_' || c == '-'

/-- Lower-case a character list (ASCII, as used for the /i regex flag). -/
def lowerList (s : List Char) : List Char := s.map Char.toLower

/-- Upper-case a character list (String.prototype.toUpperCase on ASCII). -/
def upperList (s : List Char) : List Char := s.map Char.toUpper

/-- Does `pat` occur as a contiguous substring of the first argument? -/
def containsSub : List Char → List Char → Bool
  | [], pat => pat.isPrefixOf ([] : List Char)
  | c :: t, pat => pat.isPrefixOf (c :: t) || containsSub t pat

/-- String.prototype.includes / a plain-literal regex test. -/
def hasSub (m : List Char) (p : String) : Bool := containsSub m p.toList

/-- Case-insensitive substring test (a plain-literal regex test under /i). -/
def hasSubCI (m : List Char) (p : String) : Bool :=
  containsSub (lowerList m) (lowerList p.toList)

/-- Test for `pat(?!.*avoid)`: some occurrence of `pat` after which `avoid`
does not occur before the end of the line. -/
def lookScan (pat avoid : List Char) : List Char → Bool
  | [] =>
      pat.isPrefixOf ([] : List Char) &&
        !(containsSub (([] : List Char).takeWhile (fun c => !isLineTerm c)) avoid)
  | c :: t =>
      (pat.isPrefixOf (c :: t) &&
        !(containsSub (((c :: t).drop pat.length).takeWhile (fun c => !isLineTerm c)) avoid)) ||
      lookScan pat avoid t

/-- Regex test for a literal with a negative lookahead, `pat(?!.*avoid)`. -/
def lookaheadNot (m : List Char) (pat avoid : String) : Bool :=
  lookScan pat.toList avoid.toList m

/-- Scan a line-bounded region (the JavaScript `.*`) for an occurrence of
`pat`; on a match, the continuation is applied to the remainder. -/
def gapScan (pat : List Char) (k : List Char → Bool) : List Char → Bool
  | [] => pat.isPrefixOf ([] : List Char) && k (([] : List Char).drop pat.length)
  | c :: t =>
      (pat.isPrefixOf (c :: t) && k ((c :: t).drop pat.length)) ||
      (!isLineTerm c && gapScan pat k t)

/-- Scan anywhere in the haystack (the implicit scan for the start of an
unanchored regex match) for an occurrence of `pat`; on a match, the
continuation is applied to the remainder. -/
def freeScan (pat : List Char) (k : List Char → Bool) : List Char → Bool
  | [] => pat.isPrefixOf ([] : List Char) && k (([] : List Char).drop pat.length)
  | c :: t =>
      (pat.isPrefixOf (c :: t) && k ((c :: t).drop pat.length)) || freeScan pat k t

/-- Continue a chain match after the first literal: each further literal must
occur after the previous one with only non-line-terminator characters (the
JavaScript `.*`) in between. -/
def chainGap : List (List Char) → List Char → Bool
  | [], _ => true
  | pat :: rest, hay => gapScan pat (chainGap rest) hay

/-- Regex test for a chain of literals separated by `.*`: the first literal
may start anywhere, later literals follow within the same line. -/
def chainTest : List (List Char) → List Char → Bool
  | [], _ => true
  | pat :: rest, hay => freeScan pat (chainGap rest) hay

/-- Test a `.*`-separated chain of literals against a message. -/
def hasChain (m : List Char) (ps : List String) : Bool :=
  chainTest (ps.map String.toList) m

/-- Case-insensitive variant of `hasChain` (the /i flag). -/
def hasChainCI (m : List Char) (ps : List String) : Bool :=
  chainTest (ps.map (fun p => lowerList p.toList)) (lowerList m)

/-!
Error detectors (src/services/parsers/error-detectors).  Each detector takes
the semantic message of a parsed line and judges whether it is critical.
-/

/-- Early non-critical check of BaseErrorDetector.isCritical (base.ts 56-60):
messages containing warning (any case), WARN, or deprecated (any case) are
never critical. -/
def BaseErrorDetector.nonCriticalEarly (m : List Char) : Bool :=
  hasSubCI m "warning" || hasSub m "WARN" || hasSubCI m "deprecated"

/-- The plain-literal critical patterns of BaseErrorDetector (base.ts 26-43):
connection and port errors, system-level errors, generic fatal markers. -/
def BaseErrorDetector.simpleCriticalHit (m : List Char) : Bool :=
  hasSub m "EADDRINUSE" || hasSub m "EACCES" || hasSub m "ENOENT" ||
  hasSub m "ECONNREFUSED" ||
  hasSubCI m "out of memory" || hasSubCI m "segmentation fault" ||
  hasSubCI m "stack overflow" ||
  hasSub m "FATAL" || hasSub m "PANIC" || hasSub m "SIGKILL" || hasSub m "SIGTERM"

/-- The module and syntax critical patterns of BaseErrorDetector with their
negative lookaheads excluding warnings (base.ts 45-52). -/
def BaseErrorDetector.lookaheadCriticalHit (m : List Char) : Bool :=
  lookaheadNot m "Cannot find module" "warning" ||
  lookaheadNot m "Module not found" "warning" ||
  lookaheadNot m "Package not found" "warning" ||
  lookaheadNot m "SyntaxError" "warning" ||
  lookaheadNot m "Parse error" "warning" ||
  lookaheadNot m "Unexpected token" "warning"

/-- BaseErrorDetector.isCritical (base.ts 24-64): early return false on the
warning markers, otherwise test the critical pattern list. -/
def BaseErrorDetector.isCritical (m : List Char) : Bool :=
  if BaseErrorDetector.nonCriticalEarly m then false
  else
    BaseErrorDetector.simpleCriticalHit m || BaseErrorDetector.lookaheadCriticalHit m

/-- The Next.js specific critical patterns (nextjs.ts 16-27). -/
def NextJsErrorDetector.criticalHit (m : List Char) : Bool :=
  hasSub m "Module not found: Can\x27t resolve" ||
  hasSub m "SyntaxError:" ||
  hasSub m "TypeError:" ||
  hasSub m "ReferenceError:" ||
  hasSub m "Build error occurred" ||
  hasSub m "Failed to compile" ||
  hasSub m "Error: Cannot find module" ||
  hasSub m "FATAL ERROR:" ||
  hasSub m "Unhandled Runtime Error" ||
  hasSub m "Error occurred prerendering"

/-- The Next.js specific exclusion patterns (nextjs.ts 30-40). -/
def NextJsErrorDetector.nonCriticalHit (m : List Char) : Bool :=
  hasSub m "generateStaticParams" ||
  hasSub m ".next" ||
  hasSub m "Fast Refresh" ||
  hasSub m "warn  -" ||
  hasSub m "Compiling" ||
  hasSub m "Compiled client and server" ||
  hasSub m "Ready in" ||
  hasSub m ".map" ||
  hasSub m "Waiting for the changes"

/-- NextJsErrorDetector.isCritical (nextjs.ts 9-59): defer to the base
detector, then the two special-case handlers for FATAL and missing-module
messages, then the exclusion list, then the inclusion list. -/
def NextJsErrorDetector.isCritical (m : List Char) : Bool :=
  if BaseErrorDetector.isCritical m then true
  else if hasSub m "FATAL" && !(hasSub m "generateStaticParams") then true
  else if hasSub m "Cannot find module" && !(hasSub m ".next") then true
  else if NextJsErrorDetector.nonCriticalHit m then false
  else NextJsErrorDetector.criticalHit m

/-- The Rails specific critical patterns (rails.ts 16-52). -/
def RailsErrorDetector.criticalHit (m : List Char) : Bool :=
  hasSub m "LoadError" ||
  hasChain m ["Bundler::", "Error"] ||
  hasChain m ["Gem::", "Error"] ||
  hasSubCI m "could not find gem" ||
  hasChainCI m ["bundle", "install", "required"] ||
  (hasChainCI m ["SyntaxError", "config"] || hasChainCI m ["SyntaxError", "application"] ||
    hasChainCI m ["SyntaxError", "boot"]) ||
  (hasChainCI m ["NameError", "config"] || hasChainCI m ["NameError", "application"] ||
    hasChainCI m ["NameError", "boot"]) ||
  (hasChainCI m ["LoadError", "config"] || hasChainCI m ["LoadError", "application"] ||
    hasChainCI m ["LoadError", "boot"]) ||
  hasChainCI m ["Rails", "application", "failed", "initialize"] ||
  hasChainCI m ["configuration", "error"] ||
  hasChainCI m ["invalid", "configuration"] ||
  hasSub m "ActiveRecord::ConnectionNotEstablished" ||
  hasSub m "ActiveRecord::NoDatabaseError" ||
  hasSub m "PG::ConnectionBad" ||
  hasSub m "Mysql2::Error::ConnectionError" ||
  hasChain m ["Redis::", "Error"] ||
  hasChainCI m ["database", "does not exist"] ||
  hasChainCI m ["connection", "refused", "database"] ||
  hasSub m "Address already in use" ||
  hasChainCI m ["server", "failed", "start"] ||
  hasChainCI m ["rails", "server", "error"] ||
  hasChainCI m ["Puma", "failed", "start"] ||
  hasChainCI m ["Unicorn", "failed", "start"] ||
  hasSub m "ActiveRecord::PendingMigrationError" ||
  hasChainCI m ["ActiveRecord::StatementInvalid", "migration"] ||
  hasChainCI m ["database", "migration", "failed"]

/-- The Rails specific exclusion patterns (rails.ts 55-58). -/
def RailsErrorDetector.nonCriticalHit (m : List Char) : Bool :=
  hasSubCI m "DEPRECATION WARNING" ||
  hasChainCI m ["asset", "not found"] ||
  hasSubCI m "Precompiling assets"

/-- RailsErrorDetector.isCritical (rails.ts 9-63): defer to the base
detector, then the exclusion list, then the inclusion list. -/
def RailsErrorDetector.isCritical (m : List Char) : Bool :=
  if BaseErrorDetector.isCritical m then true
  else if RailsErrorDetector.nonCriticalHit m then false
  else RailsErrorDetector.criticalHit m

/-- The Django specific critical patterns (django detector, 154-171). -/
def DjangoErrorDetector.criticalHit (m : List Char) : Bool :=
  hasSub m "django.core.exceptions." ||
  hasSub m "ImportError:" ||
  hasSub m "ModuleNotFoundError:" ||
  hasSub m "SyntaxError:" ||
  hasSub m "IndentationError:" ||
  hasSub m "AttributeError:" ||
  hasSub m "KeyError:" ||
  hasSub m "ValueError:" ||
  hasSub m "TypeError:" ||
  hasSub m "OperationalError:" ||
  hasSub m "ProgrammingError:" ||
  hasSub m "IntegrityError:" ||
  hasSub m "DataError:" ||
  hasSub m "ValidationError:" ||
  hasSub m "PermissionDenied:" ||
  hasSub m "Http404:"

/-- The Django specific exclusion patterns (django detector, 174-183). -/
def DjangoErrorDetector.nonCriticalHit (m : List Char) : Bool :=
  hasSub m "WARNING:" ||
  hasSub m "INFO:" ||
  hasSub m "DEBUG:" ||
  hasSub m "Watching for file changes" ||
  hasSub m "Performing system checks" ||
  hasSub m "System check identified" ||
  hasSub m "migrations" ||
  hasSub m "collectstatic"

/-- DjangoErrorDetector.isCritical: defer to the base detector, then the
exclusion list, then the inclusion list. -/
def DjangoErrorDetector.isCritical (m : List Char) : Bool :=
  if BaseErrorDetector.isCritical m then true
  else if DjangoErrorDetector.nonCriticalHit m then false
  else DjangoErrorDetector.criticalHit m

/-- The regex (node:digits) [DEP of the Express exclusion list: an
occurrence of the literal (node: followed by one or more digits followed by
the literal ) [DEP. -/
def nodeDepCodeAt (s : List Char) : Bool :=
  ("(node:".toList).isPrefixOf s &&
    (let r := s.drop 6
     !(r.takeWhile Char.isDigit).isEmpty &&
       (") [DEP".toList).isPrefixOf (r.dropWhile Char.isDigit))

/-- Scan for the Express node-deprecation-code pattern anywhere. -/
def nodeDepCodeHit : List Char → Bool
  | [] => nodeDepCodeAt []
  | c :: t => nodeDepCodeAt (c :: t) || nodeDepCodeHit t

/-- The Express specific critical patterns (express detector, 15-29). -/
def ExpressErrorDetector.criticalHit (m : List Char) : Bool :=
  hasSub m "Error:" ||
  hasSub m "SyntaxError:" ||
  hasSub m "TypeError:" ||
  hasSub m "ReferenceError:" ||
  hasSub m "RangeError:" ||
  hasSub m "URIError:" ||
  hasSub m "Cannot find module" ||
  hasSub m "UnhandledPromiseRejection" ||
  hasSub m "FATAL ERROR" ||
  hasChain m ["DeprecationWarning:", "(node:"] ||
  hasSub m "MongoError:" ||
  hasSub m "SequelizeError:" ||
  hasSub m "ValidationError:"

/-- The Express specific exclusion patterns (express detector, 32-41). -/
def ExpressErrorDetector.nonCriticalHit (m : List Char) : Bool :=
  lookaheadNot m "DeprecationWarning: " "(node:" ||
  nodeDepCodeHit m ||
  hasSub m "morgan" ||
  hasSub m "Server listening" ||
  hasSub m "Listening on" ||
  hasSub m "nodemon" ||
  hasSub m "restarting due to changes" ||
  hasSub m "watching for changes"

/-- ExpressErrorDetector.isCritical: defer to the base detector, then the
exclusion list, then the inclusion list. -/
def ExpressErrorDetector.isCritical (m : List Char) : Bool :=
  if BaseErrorDetector.isCritical m then true
  else if ExpressErrorDetector.nonCriticalHit m then false
  else ExpressErrorDetector.criticalHit m

example : BaseErrorDetector.isCritical ("Error: EADDRINUSE".toList) = true := by decide
example : BaseErrorDetector.isCritical ("Server started".toList) = false := by decide
example : BaseErrorDetector.isCritical ("EADDRINUSE warning".toList) = false := by decide
example : RailsErrorDetector.isCritical ("DEPRECATION WARNING: something".toList) = false := by decide
example : RailsErrorDetector.isCritical ("ActiveRecord::ConnectionNotEstablished".toList) = true := by decide
example : NextJsErrorDetector.isCritical ("FATAL: generateStaticParams".toList) = true := by decide
example : NextJsErrorDetector.isCritical ("Failed to compile".toList) = true := by decide
example : ExpressErrorDetector.isCritical ("Error: something went wrong".toList) = true := by decide
example : DjangoErrorDetector.isCritical ("ImportError: cannot import".toList) = true := by decide

/-!
Format parsers (src/services/parsers/format-parsers).  Every parser trims
the chunk, splits it on newlines, filters out empty lines, and maps a
per-line function over the result.
-/

/-- String.prototype.trim: strip JavaScript whitespace from both ends. -/
def jsTrim (s : List Char) : List Char :=
  ((s.dropWhile isJsWS).reverse.dropWhile isJsWS).reverse

/-- String.prototype.split on the newline character. -/
def splitNl : List Char → List (List Char)
  | [] => [[]]
  | '\n' :: t => [] :: splitNl t
  | c :: t =>
    match splitNl t with
    | [] => [[c]]
    | l :: ls => (c :: l) :: ls

/-- The line-extraction step shared by every format parser: on a blank chunk
return no lines, otherwise trim, split on newlines and drop empty lines
(text.trim().split followed by filter(Boolean)). -/
def jsLines (text : List Char) : List (List Char) :=
  if (jsTrim text).isEmpty then []
  else (splitNl (jsTrim text)).filter (fun l => !l.isEmpty)

/-- Metadata attached to a parsed line, by parser kind. -/
inductive ParsedMetadata where
  | foreman (timestamp : List Char) (instanceNum : Nat)
  | docker (container : List Char)
  | pm2 (timestamp : List Char)
deriving DecidableEq

/-- ParsedLine (format-parsers/base.ts): display string, semantic message,
optional process identifier, optional metadata. -/
structure ParsedLine where
  formatted : List Char
  message : List Char
  processName : Option (List Char) := none
  metadata : Option ParsedMetadata := none
deriving DecidableEq

/-- Per-line behaviour of StandardFormatParser (standard.ts): display and
message are the verbatim line. -/
def StandardFormatParser.parseLine (line : List Char) : ParsedLine :=
  { formatted := line, message := line }

/-- StandardFormatParser.parse (standard.ts 126-137). -/
def StandardFormatParser.parse (text : List Char) : List ParsedLine :=
  (jsLines text).map StandardFormatParser.parseLine

/-- parseInt on a list of decimal digits. -/
def digitsToNat (ds : List Char) : Nat :=
  ds.foldl (fun n c => n * 10 + (c.toNat - 48)) 0

/-- Remainder of the Foreman pattern after the timestamp:
one or more whitespace, a [\w-]+ process name, a dot, one or more digits,
one or more whitespace, a pipe, any whitespace, and the message, which must
be free of line terminators (the regex is anchored at end of input).
Returns (timestamp, process name, instance digits, message). -/
def ForemanFormatParser.afterTimestamp (ts rest : List Char) :
    Option (List Char × List Char × List Char × List Char) :=
  if (rest.takeWhile isJsWS).isEmpty then none
  else
    let r1 := rest.dropWhile isJsWS
    let pname := r1.takeWhile isWordDash
    if pname.isEmpty then none
    else
      match r1.dropWhile isWordDash with
      | '.' :: r2 =>
        let digs := r2.takeWhile Char.isDigit
        if digs.isEmpty then none
        else
          let r3 := r2.dropWhile Char.isDigit
          if (r3.takeWhile isJsWS).isEmpty then none
          else
            match r3.dropWhile isJsWS with
            | '|' :: r4 =>
              let msg := r4.dropWhile isJsWS
              if msg.all (fun ch => !isLineTerm ch) then some (ts, pname, digs, msg)
              else none
            | _ => none
      | _ => none

/-- The anchored Foreman pattern (foreman.ts 18): a HH:MM:SS timestamp with
an optional three-digit millisecond suffix, then process, instance and
message.  If the character after the seconds is a dot, the millisecond
branch is forced (the non-millisecond branch would immediately require
whitespace and fail). -/
def ForemanFormatParser.matchLine (line : List Char) :
    Option (List Char × List Char × List Char × List Char) :=
  match line with
  | h1 :: h2 :: c1 :: m1 :: m2 :: c2 :: s1 :: s2 :: rest =>
    if h1.isDigit && h2.isDigit && c1 == ':' && m1.isDigit && m2.isDigit &&
        c2 == ':' && s1.isDigit && s2.isDigit then
      let ts8 : List Char := [h1, h2, c1, m1, m2, c2, s1, s2]
      match rest with
      | '.' :: r =>
        (match r with
         | d1 :: d2 :: d3 :: r2 =>
           if d1.isDigit && d2.isDigit && d3.isDigit then
             ForemanFormatParser.afterTimestamp (ts8 ++ ['.', d1, d2, d3]) r2
           else none
         | _ => none)
      | _ => ForemanFormatParser.afterTimestamp ts8 rest
    else none
  | _ => none

/-- Per-line behaviour of ForemanFormatParser (foreman.ts 26-51): on a match
build the bracketed upper-case display; otherwise keep the line as-is. -/
def ForemanFormatParser.parseLine (line : List Char) : ParsedLine :=
  match ForemanFormatParser.matchLine line with
  | some (ts, pname, digs, msg) =>
    { formatted := ('[' :: upperList pname) ++ (']' :: ' ' :: jsTrim msg),
      message := jsTrim msg,
      processName := some pname,
      metadata := some (ParsedMetadata.foreman ts (digitsToNat digs)) }
  | none => { formatted := line, message := line }

/-- ForemanFormatParser.parse (foreman.ts 20-52). -/
def ForemanFormatParser.parse (text : List Char) : List ParsedLine :=
  (jsLines text).map ForemanFormatParser.parseLine

/-- Strip a trailing separator-plus-digits suffix from a token, as in the
replace calls with the anchored patterns underscore-digits (Docker Compose)
and hyphen-digits (PM2). -/
def stripTrailingIndex (sep : Char) (s : List Char) : List Char :=
  let rev := s.reverse
  let ds := rev.takeWhile Char.isDigit
  if ds.isEmpty then s
  else
    match rev.drop ds.length with
    | c :: rest => if c == sep then rest.reverse else s
    | [] => s

/-- The anchored Docker Compose pattern (docker-compose parser, line 13):
a nonempty non-whitespace token, one or more whitespace, a pipe, one or
more whitespace, and the message.  Returns (container token, message). -/
def DockerComposeFormatParser.matchLine (line : List Char) :
    Option (List Char × List Char) :=
  let token := line.takeWhile (fun c => !isJsWS c)
  if token.isEmpty then none
  else
    let r1 := line.drop token.length
    if (r1.takeWhile isJsWS).isEmpty then none
    else
      match r1.dropWhile isJsWS with
      | '|' :: r2 =>
        if (r2.takeWhile isJsWS).isEmpty then none
        else
          let msg := r2.dropWhile isJsWS
          if msg.all (fun ch => !isLineTerm ch) then some (token, msg) else none
      | _ => none

/-- Per-line behaviour of DockerComposeFormatParser (docker-compose parser,
21-44): the display name is the container token with a trailing
underscore-digits suffix stripped, upper-cased. -/
def DockerComposeFormatParser.parseLine (line : List Char) : ParsedLine :=
  match DockerComposeFormatParser.matchLine line with
  | some (container, msg) =>
    { formatted := ('[' :: upperList (stripTrailingIndex '_' container)) ++
        (']' :: ' ' :: jsTrim msg),
      message := jsTrim msg,
      processName := some container,
      metadata := some (ParsedMetadata.docker container) }
  | none => { formatted := line, message := line }

/-- DockerComposeFormatParser.parse (docker-compose parser, 15-45). -/
def DockerComposeFormatParser.parse (text : List Char) : List ParsedLine :=
  (jsLines text).map DockerComposeFormatParser.parseLine

/-- Is the head character JavaScript whitespace? -/
def headIsWS (s : List Char) : Bool :=
  match s.head? with
  | some c => isJsWS c
  | none => false

/-- Is the last character JavaScript whitespace? -/
def lastIsWS (s : List Char) : Bool :=
  match s.getLast? with
  | some c => isJsWS c
  | none => false

/-- The anchored PM2 pattern (pm2 parser, line 20): a date, whitespace, a
time, whitespace, a pipe, then whitespace + a nonempty pipe-free process
field + whitespace, a second pipe, whitespace and the message.  The segment
between the pipes must start and end with whitespace and leave at least one
character for the process field; the captured field, which the caller trims,
is represented by the trimmed segment.  Returns (timestamp, trimmed process
field, message). -/
def PM2FormatParser.matchLine (line : List Char) :
    Option (List Char × List Char × List Char) :=
  match line with
  | y1 :: y2 :: y3 :: y4 :: '-' :: mo1 :: mo2 :: '-' :: d1 :: d2 :: rest =>
    if y1.isDigit && y2.isDigit && y3.isDigit && y4.isDigit && mo1.isDigit &&
        mo2.isDigit && d1.isDigit && d2.isDigit then
      let ws1 := rest.takeWhile isJsWS
      if ws1.isEmpty then none
      else
        match rest.dropWhile isJsWS with
        | h1 :: h2 :: c1 :: mi1 :: mi2 :: c2 :: s1 :: s2 :: r2 =>
          if h1.isDigit && h2.isDigit && c1 == ':' && mi1.isDigit && mi2.isDigit &&
              c2 == ':' && s1.isDigit && s2.isDigit then
            let ts := [y1, y2, y3, y4, '-', mo1, mo2, '-', d1, d2] ++ ws1 ++
              [h1, h2, c1, mi1, mi2, c2, s1, s2]
            if (r2.takeWhile isJsWS).isEmpty then none
            else
              match r2.dropWhile isJsWS with
              | '|' :: r4 =>
                let seg := r4.takeWhile (fun c => c != '|')
                if decide (3 ≤ seg.length) && headIsWS seg && lastIsWS seg then
                  match r4.drop seg.length with
                  | '|' :: r5 =>
                    if (r5.takeWhile isJsWS).isEmpty then none
                    else
                      let msg := r5.dropWhile isJsWS
                      if msg.all (fun ch => !isLineTerm ch) then
                        some (ts, jsTrim seg, msg)
                      else none
                  | _ => none
                else none
              | _ => none
          else none
        | _ => none
    else none
  | _ => none

/-- Per-line behaviour of PM2FormatParser (pm2 parser, 28-51): the display
name is the trimmed process field with a trailing hyphen-digits suffix
stripped, upper-cased. -/
def PM2FormatParser.parseLine (line : List Char) : ParsedLine :=
  match PM2FormatParser.matchLine line with
  | some (ts, proc, msg) =>
    { formatted := ('[' :: upperList (stripTrailingIndex '-' proc)) ++
        (']' :: ' ' :: jsTrim msg),
      message := jsTrim msg,
      processName := some proc,
      metadata := some (ParsedMetadata.pm2 ts) }
  | none => { formatted := line, message := line }

/-- PM2FormatParser.parse (pm2 parser, 22-52). -/
def PM2FormatParser.parse (text : List Char) : List ParsedLine :=
  (jsLines text).map PM2FormatParser.parseLine

example : StandardFormatParser.parse ("Server started\nListening on port 3000".toList) =
    [{ formatted := "Server started".toList, message := "Server started".toList },
     { formatted := "Listening on port 3000".toList, message := "Listening on port 3000".toList }] := by
  decide
example : StandardFormatParser.parse ("  \n  ".toList) = [] := by decide
example : ForemanFormatParser.parse ("10:23:45.123 js.1 | Compiling...".toList) =
    [{ formatted := "[JS] Compiling...".toList, message := "Compiling...".toList,
       processName := some ("js".toList),
       metadata := some (ParsedMetadata.foreman ("10:23:45.123".toList) 1) }] := by decide
example : DockerComposeFormatParser.parse ("web_1     | Starting server...".toList) =
    [{ formatted := "[WEB] Starting server...".toList, message := "Starting server...".toList,
       processName := some ("web_1".toList),
       metadata := some (ParsedMetadata.docker ("web_1".toList)) }] := by decide
example : PM2FormatParser.parse ("2024-01-01 10:23:45 | app-0 | Server started".toList) =
    [{ formatted := "[APP] Server started".toList, message := "Server started".toList,
       processName := some ("app-0".toList),
       metadata := some (ParsedMetadata.pm2 ("2024-01-01 10:23:45".toList)) }] := by decide
example : ForemanFormatParser.parse ("10:23:45 esbuild-worker.1 | Built in 150ms".toList) =
    [{ formatted := "[ESBUILD-WORKER] Built in 150ms".toList, message := "Built in 150ms".toList,
       processName := some ("esbuild-worker".toList),
       metadata := some (ParsedMetadata.foreman ("10:23:45".toList) 1) }] := by decide

/-!
The output processor (src/services/parsers/output-processor.ts) composes a
format parser with an error detector.
-/

/-- LogEntry (output-processor.ts 12-16): formatted display text, an optional
critical flag (present only when set) and an optional raw message. -/
structure LogEntry where
  formatted : List Char
  isCritical : Option Bool := none
  rawMessage : Option (List Char) := none
deriving DecidableEq

/-- Per-line behaviour of OutputProcessor.process (output-processor.ts
39-55): classify as critical only on the error stream, prepend the error
marker on the error stream, and attach the critical flag and raw message
only when critical. -/
def OutputProcessor.processLine (errorDetector : List Char → Bool) (isError : Bool)
    (line : ParsedLine) : LogEntry :=
  let isCritical := isError && errorDetector line.message
  let entry : LogEntry :=
    { formatted := if isError then "ERROR: ".toList ++ line.formatted else line.formatted }
  if isCritical then
    { entry with isCritical := some true, rawMessage := some line.message }
  else entry

/-- OutputProcessor.process (output-processor.ts 34-56): run the configured
format parser, then build one log entry per parsed line. -/
def OutputProcessor.process (formatParser : List Char → List ParsedLine)
    (errorDetector : List Char → Bool) (text : List Char) (isError : Bool) :
    List LogEntry :=
  (formatParser text).map (OutputProcessor.processLine errorDetector isError)

/-!
The session orchestrator (DevEnvironment, part_000).  The relevant state for
the shutdown claims is the terminating flag, the number of times the
shutdown body (kill both ports, shut down the CDP monitor, exit) has run,
and the exit code passed to process.exit.  JavaScript executes each handler
on a single thread and neither gracefulShutdown nor the SIGINT handler
suspends between reading and writing isShuttingDown, so concurrent triggers
are modelled as an arbitrary interleaving sequence of trigger events.
-/

/-- The orchestrator state relevant to shutdown (DevEnvironment fields). -/
structure SessionState where
  isShuttingDown : Bool
  shutdownBodyRuns : Nat
  exitCode : Option Nat
deriving DecidableEq

/-- The state at session start: not terminating, body never run. -/
def DevEnvironment.initialState : SessionState :=
  { isShuttingDown := false, shutdownBodyRuns := 0, exitCode := none }

/-- DevEnvironment.gracefulShutdown (part_000 650-699): return at once when
already terminating, otherwise set the flag, run the teardown body (kill the
processes on the application port and the MCP port, shut down the CDP
monitor) and exit with status 1. -/
def DevEnvironment.gracefulShutdown (s : SessionState) : SessionState :=
  if s.isShuttingDown then s
  else
    { isShuttingDown := true, shutdownBodyRuns := s.shutdownBodyRuns + 1,
      exitCode := some 1 }

/-- The SIGINT handler installed by DevEnvironment.setupCleanupHandlers
(part_000 701-753): return at once when already terminating, otherwise set
the flag, run the same teardown body and exit with status 0. -/
def DevEnvironment.sigintHandler (s : SessionState) : SessionState :=
  if s.isShuttingDown then s
  else
    { isShuttingDown := true, shutdownBodyRuns := s.shutdownBodyRuns + 1,
      exitCode := some 0 }

/-- The independent events that can fire the shutdown path: a fatal server
exit (part_000 328), a CDP monitoring failure (part_000 619), an interrupt
signal (part_000 703). -/
inductive ShutdownTrigger where
  | serverFatalExit
  | cdpFailure
  | sigint
deriving DecidableEq

/-- Dispatch one trigger to the handler the source wires it to. -/
def DevEnvironment.applyTrigger (s : SessionState) (t : ShutdownTrigger) : SessionState :=
  match t with
  | ShutdownTrigger.serverFatalExit => DevEnvironment.gracefulShutdown s
  | ShutdownTrigger.cdpFailure => DevEnvironment.gracefulShutdown s
  | ShutdownTrigger.sigint => DevEnvironment.sigintHandler s

/-- Run a sequence of triggers from a state. -/
def DevEnvironment.runTriggers : SessionState → List ShutdownTrigger → SessionState
  | s, [] => s
  | s, t :: ts => DevEnvironment.runTriggers (DevEnvironment.applyTrigger s t) ts

/-- All states visited while running a sequence of triggers, including the
start state. -/
def DevEnvironment.traceStates : SessionState → List ShutdownTrigger → List SessionState
  | s, [] => [s]
  | s, t :: ts => s :: DevEnvironment.traceStates (DevEnvironment.applyTrigger s t) ts

/-- Number of false-to-true transitions in a Boolean trace. -/
def boolFlips : List Bool → Nat
  | [] => 0
  | [_] => 0
  | a :: b :: rest => (if a == false && b == true then 1 else 0) + boolFlips (b :: rest)

/-- What the application-server exit handler does (part_000 306-336). -/
inductive ServerExitAction where
  | ignored
  | noAction
  | logAndContinue
  | fatalShutdown
deriving DecidableEq

/-- The exit handler installed on the application server process (part_000
306-336): ignore exits while terminating; do nothing on exit code 0 or
null; treat 1, 130 and 143 as transient (log and continue); call
gracefulShutdown for every other code. -/
def DevEnvironment.serverExitHandler (isShuttingDown : Bool) (code : Option Int) :
    ServerExitAction :=
  if isShuttingDown then ServerExitAction.ignored
  else
    match code with
    | none => ServerExitAction.noAction
    | some c =>
      if c == 0 then ServerExitAction.noAction
      else if c != 1 && c != 130 && c != 143 then ServerExitAction.fatalShutdown
      else ServerExitAction.logAndContinue

/-- Summary of the calls a process-exit handler makes. -/
structure HandlerEffect where
  loggedExit : Bool
  triggeredShutdown : Bool
  exitedProcess : Bool
deriving DecidableEq

/-- The exit handler installed on the MCP server process (part_000 477-483):
it writes a log line when the exit code is neither 0 nor null, and does
nothing else — it neither calls gracefulShutdown nor exits the process.
The source handler does not consult the terminating flag; the flag is a
parameter here only so that the claim about a non-terminating session can
be stated. -/
def DevEnvironment.mcpExitHandler (_isShuttingDown : Bool) (code : Option Int) :
    HandlerEffect :=
  { loggedExit := match code with
      | some c => c != 0
      | none => false,
    triggeredShutdown := false,
    exitedProcess := false }

example : OutputProcessor.process StandardFormatParser.parse BaseErrorDetector.isCritical
    ("hello".toList) false = [{ formatted := "hello".toList }] := by decide
example : OutputProcessor.process StandardFormatParser.parse BaseErrorDetector.isCritical
    ("boom EADDRINUSE".toList) true =
    [{ formatted := "ERROR: boom EADDRINUSE".toList, isCritical := some true,
       rawMessage := some ("boom EADDRINUSE".toList) }] := by decide
example : DevEnvironment.runTriggers DevEnvironment.initialState
    [ShutdownTrigger.serverFatalExit, ShutdownTrigger.sigint] =
    { isShuttingDown := true, shutdownBodyRuns := 1, exitCode := some 1 } := by decide
example : DevEnvironment.serverExitHandler false (some 130) = ServerExitAction.logAndContinue := by decide
example : DevEnvironment.serverExitHandler false (some 2) = ServerExitAction.fatalShutdown := by decide
example : DevEnvironment.mcpExitHandler false (some 2) =
    { loggedExit := true, triggeredShutdown := false, exitedProcess := false } := by decide

/-!
Helper lemmas about the shutdown state machine and the detectors.
-/

lemma applyTrigger_shutdown_eq (s : SessionState) (t : ShutdownTrigger)
    (h : s.isShuttingDown = true) : DevEnvironment.applyTrigger s t = s := by
  cases t <;> simp [DevEnvironment.applyTrigger, DevEnvironment.gracefulShutdown,
    DevEnvironment.sigintHandler, h]

lemma applyTrigger_not_shutdown (s : SessionState) (t : ShutdownTrigger)
    (h : s.isShuttingDown = false) :
    (DevEnvironment.applyTrigger s t).isShuttingDown = true ∧
    (DevEnvironment.applyTrigger s t).shutdownBodyRuns = s.shutdownBodyRuns + 1 := by
  cases t <;> simp [DevEnvironment.applyTrigger, DevEnvironment.gracefulShutdown,
    DevEnvironment.sigintHandler, h]

lemma runTriggers_body_inv (ts : List ShutdownTrigger) :
    ∀ s : SessionState,
      s.shutdownBodyRuns ≤ 1 → (s.isShuttingDown = false → s.shutdownBodyRuns = 0) →
      (DevEnvironment.runTriggers s ts).shutdownBodyRuns ≤ 1 := by
  induction ts with
  | nil => intro s h1 _; simpa [DevEnvironment.runTriggers] using h1
  | cons t ts ih =>
    intro s h1 h2
    show (DevEnvironment.runTriggers (DevEnvironment.applyTrigger s t) ts).shutdownBodyRuns ≤ 1
    cases hf : s.isShuttingDown with
    | false =>
      obtain ⟨hft, hrun⟩ := applyTrigger_not_shutdown s t hf
      have hone : (DevEnvironment.applyTrigger s t).shutdownBodyRuns = 1 := by
        rw [hrun, h2 hf]
      exact ih _ (by omega) (fun hc => by rw [hft] at hc; cases hc)
    | true =>
      rw [applyTrigger_shutdown_eq s t hf]
      exact ih s h1 h2

lemma traceStates_cons (s : SessionState) (ts : List ShutdownTrigger) :
    ∃ r, DevEnvironment.traceStates s ts = s :: r := by
  cases ts with
  | nil => exact ⟨[], rfl⟩
  | cons t ts => exact ⟨_, rfl⟩

lemma boolFlips_le_one (ts : List ShutdownTrigger) :
    ∀ s : SessionState,
      boolFlips ((DevEnvironment.traceStates s ts).map (fun st => st.isShuttingDown)) ≤
        (if s.isShuttingDown then 0 else 1) := by
  induction ts with
  | nil =>
    intro s
    cases s.isShuttingDown <;> simp [DevEnvironment.traceStates, boolFlips]
  | cons t ts ih =>
    intro s
    obtain ⟨r, hr⟩ := traceStates_cons (DevEnvironment.applyTrigger s t) ts
    have hmap := ih (DevEnvironment.applyTrigger s t)
    rw [hr] at hmap
    show boolFlips ((s :: DevEnvironment.traceStates (DevEnvironment.applyTrigger s t) ts).map
        (fun st => st.isShuttingDown)) ≤ _
    rw [hr]
    cases hf : s.isShuttingDown with
    | false =>
      obtain ⟨hft, _⟩ := applyTrigger_not_shutdown s t hf
      simp [boolFlips, hf, hft] at hmap ⊢
      omega
    | true =>
      rw [applyTrigger_shutdown_eq s t hf] at hmap ⊢
      simp [boolFlips, hf] at hmap ⊢
      omega

lemma base_isCritical_of_simple (m : List Char)
    (hnw : BaseErrorDetector.nonCriticalEarly m = false)
    (hhit : BaseErrorDetector.simpleCriticalHit m = true) :
    BaseErrorDetector.isCritical m = true := by
  simp [BaseErrorDetector.isCritical, hnw, hhit]

lemma rails_of_base (m : List Char) (h : BaseErrorDetector.isCritical m = true) :
    RailsErrorDetector.isCritical m = true := by
  simp [RailsErrorDetector.isCritical, h]

lemma nextjs_of_base (m : List Char) (h : BaseErrorDetector.isCritical m = true) :
    NextJsErrorDetector.isCritical m = true := by
  simp [NextJsErrorDetector.isCritical, h]

lemma django_of_base (m : List Char) (h : BaseErrorDetector.isCritical m = true) :
    DjangoErrorDetector.isCritical m = true := by
  simp [DjangoErrorDetector.isCritical, h]

lemma express_of_base (m : List Char) (h : BaseErrorDetector.isCritical m = true) :
    ExpressErrorDetector.isCritical m = true := by
  simp [ExpressErrorDetector.isCritical, h]

/-!
The claim theorems.
-/

/-- Claim C1: for every sequence of shutdown triggers (fatal server exit,
CDP failure, interrupt signal), starting from the initial session state, the
terminating flag transitions from false to true at most once along the
trace, and the shutdown body runs at most once. -/
theorem c1_shutdown_idempotent (ts : List ShutdownTrigger) :
    (DevEnvironment.runTriggers DevEnvironment.initialState ts).shutdownBodyRuns ≤ 1 ∧
    boolFlips ((DevEnvironment.traceStates DevEnvironment.initialState ts).map
      (fun st => st.isShuttingDown)) ≤ 1 := by
  constructor
  · exact runTriggers_body_inv ts DevEnvironment.initialState (by decide) (fun _ => rfl)
  · have h := boolFlips_le_one ts DevEnvironment.initialState
    simpa [DevEnvironment.initialState] using h

/-- Claim C2 counterexample: when the MCP server process exits with code 2
while the session is not terminating, the exit handler does not trigger the
shutdown routine and does not exit the process — contrary to the claim that
it triggers the single shutdown routine and exits non-zero. -/
theorem c2_cex :
    (DevEnvironment.mcpExitHandler false (some 2)).triggeredShutdown = false ∧
    (DevEnvironment.mcpExitHandler false (some 2)).exitedProcess = false := by decide

/-- Claim C2 (amended): whenever the MCP server process exits with a
non-zero exit code, whether or not the session is terminating, the exit
handler only writes a log line; it does not trigger the shutdown routine
and does not exit the process. -/
theorem c2_mcp_exit_logs_only (flag : Bool) (code : Int) (h : code ≠ 0) :
    DevEnvironment.mcpExitHandler flag (some code) =
      { loggedExit := true, triggeredShutdown := false, exitedProcess := false } := by
  simp [DevEnvironment.mcpExitHandler, h]

/-- Witness for the amended claim C2 at exit code 2. -/
theorem c2_witness :
    (2 : Int) ≠ 0 ∧
    DevEnvironment.mcpExitHandler false (some 2) =
      { loggedExit := true, triggeredShutdown := false, exitedProcess := false } :=
  ⟨by decide, c2_mcp_exit_logs_only false 2 (by decide)⟩

/-- Claim C3: exits observed while terminating are ignored; exit code 0 or
null is non-fatal; codes 1, 130 and 143 are logged and the session
continues; every other non-zero code takes the fatal branch, and the
shutdown routine it invokes exits with status 1, which is non-zero. -/
theorem c3_server_exit_policy :
    (∀ code : Option Int, DevEnvironment.serverExitHandler true code = ServerExitAction.ignored) ∧
    DevEnvironment.serverExitHandler false none = ServerExitAction.noAction ∧
    DevEnvironment.serverExitHandler false (some 0) = ServerExitAction.noAction ∧
    DevEnvironment.serverExitHandler false (some 1) = ServerExitAction.logAndContinue ∧
    DevEnvironment.serverExitHandler false (some 130) = ServerExitAction.logAndContinue ∧
    DevEnvironment.serverExitHandler false (some 143) = ServerExitAction.logAndContinue ∧
    (∀ c : Int, c ≠ 0 → c ≠ 1 → c ≠ 130 → c ≠ 143 →
      DevEnvironment.serverExitHandler false (some c) = ServerExitAction.fatalShutdown) ∧
    (∀ s : SessionState, s.isShuttingDown = false →
      (DevEnvironment.gracefulShutdown s).exitCode = some 1 ∧
      (DevEnvironment.gracefulShutdown s).exitCode ≠ some 0) := by
  refine ⟨?_, by decide, by decide, by decide, by decide, by decide, ?_, ?_⟩
  · intro code; simp [DevEnvironment.serverExitHandler]
  · intro c h0 h1 h130 h143
    simp [DevEnvironment.serverExitHandler, h0, h1, h130, h143]
  · intro s h; simp [DevEnvironment.gracefulShutdown, h]

/-- Witness for claim C3 at exit code 2. -/
theorem c3_witness :
    DevEnvironment.serverExitHandler false (some 2) = ServerExitAction.fatalShutdown ∧
    (DevEnvironment.gracefulShutdown DevEnvironment.initialState).exitCode ≠ some 0 :=
  ⟨c3_server_exit_policy.2.2.2.2.2.2.1 2 (by decide) (by decide) (by decide) (by decide),
   (c3_server_exit_policy.2.2.2.2.2.2.2 DevEnvironment.initialState rfl).2⟩

/-- Claim C4: the code contradicts the claim (and its own detector test,
which expects FATAL: generateStaticParams to be non-critical).  On the
input FATAL: generateStaticParams the Next.js exclusion list matches, yet
isCritical returns true, because the base detector FATAL pattern is checked
before the profile exclusions; likewise FATAL ERROR: Fast Refresh matches
both an exclusion and an inclusion pattern and is classified critical. -/
theorem c4_code_eval :
    (NextJsErrorDetector.nonCriticalHit ("FATAL: generateStaticParams".toList) = true ∧
     NextJsErrorDetector.isCritical ("FATAL: generateStaticParams".toList) = true) ∧
    (NextJsErrorDetector.nonCriticalHit ("FATAL ERROR: Fast Refresh".toList) = true ∧
     NextJsErrorDetector.criticalHit ("FATAL ERROR: Fast Refresh".toList) = true ∧
     NextJsErrorDetector.isCritical ("FATAL ERROR: Fast Refresh".toList) = true) := by
  decide

/-- Claim C5 counterexample: the message EADDRINUSE warning contains the
address-in-use indicator yet is classified non-critical, and the base
detector has no timed-out or DNS-not-found pattern at all, so ETIMEDOUT and
ENOTFOUND messages are classified non-critical. -/
theorem c5_cex :
    BaseErrorDetector.isCritical ("EADDRINUSE warning".toList) = false ∧
    BaseErrorDetector.isCritical ("connect ETIMEDOUT".toList) = false ∧
    BaseErrorDetector.isCritical ("getaddrinfo ENOTFOUND example.com".toList) = false := by
  decide

/-- Claim C5 (amended): for every message matching one of the plain
base-layer critical patterns that the code actually has (EADDRINUSE,
EACCES, ENOENT, ECONNREFUSED, out of memory, segmentation fault, stack
overflow, FATAL, PANIC, SIGKILL, SIGTERM) and not containing the early
non-critical markers (warning in any case, WARN, deprecated in any case),
the base detector classifies the message as critical. -/
theorem c5_base_critical (m : List Char)
    (hnw : BaseErrorDetector.nonCriticalEarly m = false)
    (hhit : BaseErrorDetector.simpleCriticalHit m = true) :
    BaseErrorDetector.isCritical m = true :=
  base_isCritical_of_simple m hnw hhit

/-- Witness for the amended claim C5 at a concrete message. -/
theorem c5_witness :
    BaseErrorDetector.nonCriticalEarly ("bind EADDRINUSE".toList) = false ∧
    BaseErrorDetector.simpleCriticalHit ("bind EADDRINUSE".toList) = true ∧
    BaseErrorDetector.isCritical ("bind EADDRINUSE".toList) = true :=
  ⟨by decide, by decide, c5_base_critical _ (by decide) (by decide)⟩

/-- Claim C6 counterexample: the message EADDRINUSE deprecated contains the
base critical substring EADDRINUSE, yet every detector classifies it
non-critical, because the early deprecation marker check in the base
detector overrides the critical patterns. -/
theorem c6_cex :
    hasSub ("EADDRINUSE deprecated".toList) "EADDRINUSE" = true ∧
    BaseErrorDetector.isCritical ("EADDRINUSE deprecated".toList) = false ∧
    RailsErrorDetector.isCritical ("EADDRINUSE deprecated".toList) = false ∧
    NextJsErrorDetector.isCritical ("EADDRINUSE deprecated".toList) = false ∧
    DjangoErrorDetector.isCritical ("EADDRINUSE deprecated".toList) = false ∧
    ExpressErrorDetector.isCritical ("EADDRINUSE deprecated".toList) = false := by
  decide

/-- Claim C6 (amended): for every message matching a plain base-layer
critical pattern such as EADDRINUSE and not containing the early
non-critical markers (warning in any case, WARN, deprecated in any case),
isCritical returns true under the neutral base detector and under every
framework profile detector (Rails, Next.js, Django, Express), since each
profile defers to the base check first. -/
theorem c6_base_critical_all_profiles (m : List Char)
    (hnw : BaseErrorDetector.nonCriticalEarly m = false)
    (hhit : BaseErrorDetector.simpleCriticalHit m = true) :
    BaseErrorDetector.isCritical m = true ∧
    RailsErrorDetector.isCritical m = true ∧
    NextJsErrorDetector.isCritical m = true ∧
    DjangoErrorDetector.isCritical m = true ∧
    ExpressErrorDetector.isCritical m = true := by
  have hb := base_isCritical_of_simple m hnw hhit
  exact ⟨hb, rails_of_base m hb, nextjs_of_base m hb, django_of_base m hb,
    express_of_base m hb⟩

/-- Witness for the amended claim C6 at a concrete message. -/
theorem c6_witness :
    BaseErrorDetector.nonCriticalEarly ("port EADDRINUSE busy".toList) = false ∧
    BaseErrorDetector.simpleCriticalHit ("port EADDRINUSE busy".toList) = true ∧
    (BaseErrorDetector.isCritical ("port EADDRINUSE busy".toList) = true ∧
     RailsErrorDetector.isCritical ("port EADDRINUSE busy".toList) = true ∧
     NextJsErrorDetector.isCritical ("port EADDRINUSE busy".toList) = true ∧
     DjangoErrorDetector.isCritical ("port EADDRINUSE busy".toList) = true ∧
     ExpressErrorDetector.isCritical ("port EADDRINUSE busy".toList) = true) :=
  ⟨by decide, by decide, c6_base_critical_all_profiles _ (by decide) (by decide)⟩

/-- Claim C7: for every format parser, error detector and chunk, processing
with isError false yields entries whose critical flag is absent and whose
raw message is absent; and whenever an entry carries the critical flag or a
raw message, the stream was the error stream and the detector returned true
on the semantic message of the corresponding parsed line. -/
theorem c7_critical_gating (fp : List Char → List ParsedLine) (ed : List Char → Bool)
    (text : List Char) :
    (∀ e ∈ OutputProcessor.process fp ed text false,
       e.isCritical = none ∧ e.rawMessage = none) ∧
    (∀ isError : Bool, ∀ e ∈ OutputProcessor.process fp ed text isError,
       (e.isCritical = some true ∨ e.rawMessage ≠ none) →
       isError = true ∧ ∃ line ∈ fp text, ed line.message = true ∧
         e.isCritical = some true ∧ e.rawMessage = some line.message) := by
  constructor
  · intro e he
    obtain ⟨line, hline, rfl⟩ := List.mem_map.mp he
    simp [OutputProcessor.processLine]
  · intro isError e he hor
    obtain ⟨line, hline, rfl⟩ := List.mem_map.mp he
    cases hc : (isError && ed line.message) with
    | false =>
      exfalso
      rcases hor with h | h <;> simp [OutputProcessor.processLine, hc] at h
    | true =>
      have hsplit : isError = true ∧ ed line.message = true := by
        have hcc := hc; simp only [Bool.and_eq_true] at hcc; exact hcc
      refine ⟨hsplit.1, line, hline, hsplit.2, ?_, ?_⟩ <;>
        simp [OutputProcessor.processLine, hc]

/-- Witness for claim C7: the standard parser with the base detector on a
plain chunk of the non-error stream yields an entry without the critical
flag and without a raw message. -/
theorem c7_witness :
    ({ formatted := "hi".toList } : LogEntry).isCritical = none ∧
    ({ formatted := "hi".toList } : LogEntry).rawMessage = none :=
  (c7_critical_gating StandardFormatParser.parse BaseErrorDetector.isCritical
    ("hi".toList)).1 { formatted := "hi".toList } (by decide)

/-- Claim C8: each non-passthrough parser produces exactly as many parsed
lines as the standard parser on every chunk, and on every line of the chunk
that its pattern does not match it produces exactly the parsed line the
standard parser produces, whose display and message are the verbatim
line. -/
theorem c8_fallback_to_standard (text : List Char) :
    ((ForemanFormatParser.parse text).length = (StandardFormatParser.parse text).length ∧
     (DockerComposeFormatParser.parse text).length = (StandardFormatParser.parse text).length ∧
     (PM2FormatParser.parse text).length = (StandardFormatParser.parse text).length) ∧
    ∀ line ∈ jsLines text,
      (ForemanFormatParser.matchLine line = none →
        ForemanFormatParser.parseLine line = StandardFormatParser.parseLine line) ∧
      (DockerComposeFormatParser.matchLine line = none →
        DockerComposeFormatParser.parseLine line = StandardFormatParser.parseLine line) ∧
      (PM2FormatParser.matchLine line = none →
        PM2FormatParser.parseLine line = StandardFormatParser.parseLine line) ∧
      StandardFormatParser.parseLine line = { formatted := line, message := line } := by
  refine ⟨⟨?_, ?_, ?_⟩, ?_⟩
  · simp [ForemanFormatParser.parse, StandardFormatParser.parse]
  · simp [DockerComposeFormatParser.parse, StandardFormatParser.parse]
  · simp [PM2FormatParser.parse, StandardFormatParser.parse]
  · intro line _
    refine ⟨?_, ?_, ?_, rfl⟩ <;> intro h <;>
      simp [ForemanFormatParser.parseLine, DockerComposeFormatParser.parseLine,
        PM2FormatParser.parseLine, StandardFormatParser.parseLine, h]

/-- Witness for claim C8 at a concrete non-matching line. -/
theorem c8_witness :
    ForemanFormatParser.parseLine ("plain line".toList) =
      StandardFormatParser.parseLine ("plain line".toList) ∧
    DockerComposeFormatParser.parseLine ("plain line".toList) =
      StandardFormatParser.parseLine ("plain line".toList) ∧
    PM2FormatParser.parseLine ("plain line".toList) =
      StandardFormatParser.parseLine ("plain line".toList) := by
  have h := (c8_fallback_to_standard ("plain line".toList)).2 ("plain line".toList) (by decide)
  exact ⟨h.1 (by decide), h.2.1 (by decide), h.2.2.1 (by decide)⟩

/-- Claim C9: the Foreman parser on the single-line chunk
10:23:45 web.1    | Started GET "/" yields exactly one parsed line with the
bracketed upper-case display, the bare message, process identifier web and
metadata timestamp 10:23:45, instance 1. -/
theorem c9_foreman_example :
    ForemanFormatParser.parse ("10:23:45 web.1    | Started GET \"/\"".toList) =
      [{ formatted := "[WEB] Started GET \"/\"".toList,
         message := "Started GET \"/\"".toList,
         processName := some ("web".toList),
         metadata := some (ParsedMetadata.foreman ("10:23:45".toList) 1) }] := by
  decide

/-- Claim C10: every message containing warning in any case, WARN, or
deprecated in any case is classified non-critical by the base detector,
even when it also contains a base critical substring, because the early
non-critical check runs before the critical pattern list. -/
theorem c10_warning_override (m : List Char)
    (h : hasSubCI m "warning" = true ∨ hasSub m "WARN" = true ∨
      hasSubCI m "deprecated" = true) :
    BaseErrorDetector.isCritical m = false := by
  have he : BaseErrorDetector.nonCriticalEarly m = true := by
    rcases h with h | h | h <;> simp [BaseErrorDetector.nonCriticalEarly, h]
  simp [BaseErrorDetector.isCritical, he]

/-- Witness for claim C10 at a message containing several base critical
substrings together with a warning marker. -/
theorem c10_witness :
    hasSubCI ("EADDRINUSE ECONNREFUSED FATAL warning".toList) "warning" = true ∧
    BaseErrorDetector.isCritical ("EADDRINUSE ECONNREFUSED FATAL warning".toList) = false :=
  ⟨by decide, c10_warning_override _ (Or.inl (by decide))⟩
